import Mathlib

/-!
Verification of the medibuddy MER scoring/decision engine.

Python strings are modelled as `List Char` (`Str`); Python floats as `ℚ`;
Python `int` as `ℤ`; fallible coercions as `Option`.  Each definition below
is a shallow embedding of the correspondingly named function in
`src/app.py` or `src/decision_builder.py`.
-/

/-- Python strings, modelled as lists of characters. -/
abbrev Str := List Char

/-- ASCII lower-casing of one character, as Python `str.lower` does for ASCII. -/
def lowerChar (c : Char) : Char :=
  if 65 ≤ c.toNat ∧ c.toNat ≤ 90 then Char.ofNat (c.toNat + 32) else c

/-- Python `str.lower` (ASCII fragment). -/
def pyLower (s : Str) : Str := s.map lowerChar

/-- Whitespace characters stripped by Python `str.strip`. -/
def isPySpace (c : Char) : Bool :=
  c = ' ' || c = '\t' || c = '\n' || c = '\r' || c = '\x0b' || c = '\x0c'

/-- Python `str.strip`: drop whitespace from both ends. -/
def pyStrip (s : Str) : Str :=
  ((s.dropWhile isPySpace).reverse.dropWhile isPySpace).reverse

/-- Python `needle in hay` substring test. -/
def substr (needle : Str) : Str → Bool
  | [] => needle.isEmpty
  | c :: t => needle.isPrefixOf (c :: t) || substr needle t

/-- A Python value in a position where `to_bool` (decision_builder.py) inspects it:
a real bool, a string, or anything else. -/
inductive BVal
  | bool (b : Bool)
  | str (s : Str)
  | other
  deriving DecidableEq

/-- Function `to_bool` from `src/decision_builder.py`: bools pass through; strings map
`yes`/`true` to `True` and `no`/`false` to `False` after strip+lower; anything
else yields `None`. -/
def to_bool : BVal → Option Bool
  | .bool b => some b
  | .str s =>
    let v := pyLower (pyStrip s)
    if v = "yes".data ∨ v = "true".data then some true
    else if v = "no".data ∨ v = "false".data then some false
    else none
  | .other => none

/-! ## Timestamp utility (`src/app.py`) -/

/-- Is `c` an ASCII decimal digit? -/
def isDigitChar (c : Char) : Bool := 48 ≤ c.toNat ∧ c.toNat ≤ 57

/-- Numeric value of an ASCII digit. -/
def digitVal (c : Char) : ℕ := c.toNat - 48

/-- Accumulating decimal parse; fails on any non-digit. -/
def parseDigits (acc : ℕ) : Str → Option ℕ
  | [] => some acc
  | c :: cs => if isDigitChar c then parseDigits (10 * acc + digitVal c) cs else none

/-- Python `int(s)` on a string: optional sign then one or more decimal digits,
surrounding whitespace ignored; anything else raises (here: `none`). -/
def pyInt (s : Str) : Option ℤ :=
  match pyStrip s with
  | [] => none
  | c :: rest =>
    if c = '-' then
      if rest = [] then none else (parseDigits 0 rest).map (fun n => -(n : ℤ))
    else if c = '+' then
      if rest = [] then none else (parseDigits 0 rest).map (fun n => (n : ℤ))
    else (parseDigits 0 (c :: rest)).map (fun n => (n : ℤ))

/-- Python `str.split(':')`. -/
def splitColon : Str → List Str
  | [] => [[]]
  | c :: rest =>
    if c = ':' then [] :: splitColon rest
    else
      match splitColon rest with
      | [] => [[c]]
      | h :: t => (c :: h) :: t

/-- Function `parse_mmss_to_seconds` from `src/app.py`: exactly two colon-separated
integer fields, else `None`.  The Python function returns a float with
integral value; we return the integer. -/
def parse_mmss_to_seconds (ts : Str) : Option ℤ :=
  match splitColon ts with
  | [ms, ss] =>
    match pyInt ms, pyInt ss with
    | some m, some s => some (m * 60 + s)
    | _, _ => none
  | _ => none

/-- Python `round` to an integer: round-half-to-even (banker's rounding). -/
def pythonRound (q : ℚ) : ℤ :=
  if q - ⌊q⌋ < 1 / 2 then ⌊q⌋
  else if 1 / 2 < q - ⌊q⌋ then ⌊q⌋ + 1
  else if ⌊q⌋ % 2 = 0 then ⌊q⌋ else ⌊q⌋ + 1

/-- Python `round(x, 2)`. -/
def round2 (q : ℚ) : ℚ := (pythonRound (q * 100) : ℚ) / 100

/-- Decimal digits of `n`, most significant first ("0" for 0). -/
def natChars (n : ℕ) : Str :=
  if h : n < 10 then [Char.ofNat (48 + n)]
  else natChars (n / 10) ++ [Char.ofNat (48 + n % 10)]
  decreasing_by exact Nat.div_lt_self (by omega) (by omega)

/-- Python `str(m)` for an integer. -/
def intChars (m : ℤ) : Str :=
  if m < 0 then '-' :: natChars m.natAbs else natChars m.toNat

/-- Python `f"{r:02d}"` for `0 ≤ r`: zero-pad to width 2. -/
def pad2 (r : ℕ) : Str := if r < 10 then '0' :: natChars r else natChars r

/-- Function `seconds_to_mmss` from `src/app.py`: `s = int(round(x)); f"{s//60}:{s%60:02d}"`
with Python floor-division and floor-mod. -/
def seconds_to_mmss (x : ℚ) : Str :=
  let s : ℤ := pythonRound x
  let m : ℤ := Int.fdiv s 60
  let r : ℤ := Int.fmod s 60
  intChars m ++ ':' :: pad2 r.toNat

-- #### Round-trip support lemmas

theorem parseDigits_append (a b : Str) (acc : ℕ) :
    parseDigits acc (a ++ b) = (parseDigits acc a).bind (fun v => parseDigits v b) := by
  induction a generalizing acc with
  | nil => simp [parseDigits]
  | cons c t ih =>
    simp only [List.cons_append, parseDigits]
    by_cases h : isDigitChar c = true
    · simp [h, ih]
    · simp [h]

theorem digit_lemma (d : ℕ) (hd : d < 10) :
    isDigitChar (Char.ofNat (48 + d)) = true ∧ digitVal (Char.ofNat (48 + d)) = d := by
  interval_cases d <;> exact ⟨by decide, by decide⟩

theorem parseDigits_cons_digit (acc d : ℕ) (hd : d < 10) :
    parseDigits acc [Char.ofNat (48 + d)] = some (10 * acc + d) := by
  have h1 := (digit_lemma d hd).1
  have h2 := (digit_lemma d hd).2
  simp [parseDigits, h1, h2]

theorem parseDigits_natChars (n : ℕ) (acc : ℕ) :
    ∃ k : ℕ, 0 < k ∧ parseDigits acc (natChars n) = some (acc * 10 ^ k + n) := by
  induction n using Nat.strong_induction_on generalizing acc with
  | _ n ih =>
    by_cases h : n < 10
    · refine ⟨1, by omega, ?_⟩
      rw [natChars, dif_pos h, parseDigits_cons_digit acc n h, pow_one]
      simp only [Option.some.injEq]
      omega
    · have hrec : n / 10 < n := Nat.div_lt_self (by omega) (by omega)
      obtain ⟨k, hk, hparse⟩ := ih (n / 10) hrec acc
      refine ⟨k + 1, by omega, ?_⟩
      rw [natChars, dif_neg h, parseDigits_append, hparse]
      have hone := parseDigits_cons_digit (acc * 10 ^ k + n / 10) (n % 10)
        (Nat.mod_lt _ (by omega))
      simp only [Option.bind_eq_bind, Option.some_bind, hone, Option.some.injEq]
      rw [pow_succ, ← mul_assoc]
      generalize acc * 10 ^ k = B
      omega

theorem natChars_digits (n : ℕ) : ∀ c ∈ natChars n, isDigitChar c = true := by
  induction n using Nat.strong_induction_on with
  | _ n ih =>
    by_cases h : n < 10
    · rw [natChars, dif_pos h]
      intro c hc
      simp only [List.mem_singleton] at hc
      subst hc
      exact (digit_lemma n h).1
    · rw [natChars, dif_neg h]
      intro c hc
      rcases List.mem_append.mp hc with h1 | h1
      · exact ih (n / 10) (Nat.div_lt_self (by omega) (by omega)) c h1
      · simp only [List.mem_singleton] at h1
        subst h1
        exact (digit_lemma (n % 10) (Nat.mod_lt _ (by omega))).1

theorem digit_not_colon {c : Char} (h : isDigitChar c = true) : c ≠ ':' := by
  intro hc
  subst hc
  simp [isDigitChar] at h

theorem digit_not_space {c : Char} (h : isDigitChar c = true) : isPySpace c = false := by
  simp only [isDigitChar, decide_eq_true_eq] at h
  simp only [isPySpace]
  have h32 : c.toNat ≠ 32 := by omega
  have h9 : c.toNat ≠ 9 := by omega
  have h10 : c.toNat ≠ 10 := by omega
  have h13 : c.toNat ≠ 13 := by omega
  have h11 : c.toNat ≠ 11 := by omega
  have h12 : c.toNat ≠ 12 := by omega
  simp only [Bool.or_eq_false_iff, decide_eq_false_iff_not]
  refine ⟨⟨⟨⟨⟨?_, ?_⟩, ?_⟩, ?_⟩, ?_⟩, ?_⟩ <;>
    (intro hc; subst hc; simp_all)

theorem dropWhile_eq_self_of_none {p : Char → Bool} {s : Str}
    (h : ∀ c ∈ s, p c = false) : s.dropWhile p = s := by
  cases s with
  | nil => rfl
  | cons c t => simp [List.dropWhile_cons, h c (by simp)]

theorem pyStrip_eq_self {s : Str} (h : ∀ c ∈ s, isPySpace c = false) :
    pyStrip s = s := by
  unfold pyStrip
  rw [dropWhile_eq_self_of_none h, dropWhile_eq_self_of_none (by
    intro c hc
    exact h c (List.mem_reverse.mp hc)), List.reverse_reverse]

theorem splitColon_noColon {b : Str} (h : ∀ c ∈ b, c ≠ ':') :
    splitColon b = [b] := by
  induction b with
  | nil => rfl
  | cons c t ih =>
    have hc : c ≠ ':' := h c (by simp)
    rw [splitColon, if_neg hc, ih (fun x hx => h x (by simp [hx]))]

theorem splitColon_ne_nil (b : Str) : splitColon b ≠ [] := by
  induction b with
  | nil => simp [splitColon]
  | cons c t ih =>
    rw [splitColon]
    by_cases hc : c = ':'
    · simp [hc]
    · rw [if_neg hc]
      cases h : splitColon t with
      | nil => simp
      | cons x xs => simp

theorem splitColon_append (a b : Str) (h : ∀ c ∈ a, c ≠ ':') :
    splitColon (a ++ ':' :: b) = a :: splitColon b := by
  induction a with
  | nil => simp [splitColon]
  | cons c t ih =>
    have hc : c ≠ ':' := h c (by simp)
    rw [List.cons_append, splitColon, if_neg hc, ih (fun x hx => h x (by simp [hx]))]

theorem pyInt_natChars (n : ℕ) : pyInt (natChars n) = some (n : ℤ) := by
  have hdig := natChars_digits n
  have hne : natChars n ≠ [] := by
    by_cases h : n < 10
    · rw [natChars, dif_pos h]; simp
    · rw [natChars, dif_neg h]; simp
  rw [pyInt]
  rw [pyStrip_eq_self (fun c hc => digit_not_space (hdig c hc))]
  cases hnc : natChars n with
  | nil => exact absurd hnc hne
  | cons c rest =>
    have hcd : isDigitChar c = true := by
      apply hdig; rw [hnc]; simp
    have hcm : c ≠ '-' := by
      intro h; subst h; simp [isDigitChar] at hcd
    have hcp : c ≠ '+' := by
      intro h; subst h; simp [isDigitChar] at hcd
    simp only [if_neg hcm, if_neg hcp]
    obtain ⟨k, _, hparse⟩ := parseDigits_natChars n 0
    rw [hnc] at hparse
    simp [hparse]

theorem pyInt_pad2 (r : ℕ) : pyInt (pad2 r) = some (r : ℤ) := by
  by_cases h : r < 10
  · rw [pad2, if_pos h, pyInt]
    have hz : isPySpace '0' = false := by decide
    have hdig := natChars_digits r
    rw [pyStrip_eq_self (by
      intro c hc
      rcases List.mem_cons.mp hc with h1 | h1
      · subst h1; exact hz
      · exact digit_not_space (hdig c h1))]
    simp only [if_neg (by decide : ¬ ('0' = '-')), if_neg (by decide : ¬ ('0' = '+'))]
    have : parseDigits 0 ('0' :: natChars r) = parseDigits 0 (natChars r) := by
      simp [parseDigits, isDigitChar, digitVal]
    rw [this]
    obtain ⟨k, _, hparse⟩ := parseDigits_natChars r 0
    simp [hparse]
  · rw [pad2, if_neg h]
    exact pyInt_natChars r

theorem pad2_digits (r : ℕ) : ∀ c ∈ pad2 r, isDigitChar c = true := by
  intro c hc
  by_cases h : r < 10
  · rw [pad2, if_pos h] at hc
    rcases List.mem_cons.mp hc with h1 | h1
    · subst h1; decide
    · exact natChars_digits r c h1
  · rw [pad2, if_neg h] at hc
    exact natChars_digits r c hc

theorem pythonRound_nonneg {q : ℚ} (h : 0 ≤ q) : 0 ≤ pythonRound q := by
  have hf : (0 : ℤ) ≤ ⌊q⌋ := Int.floor_nonneg.mpr h
  unfold pythonRound
  split
  · exact hf
  · split
    · omega
    · split <;> omega

/-- C9: for every non-negative rational `x`, parsing the formatted timestamp
recovers the rounded value: `parse_mmss_to_seconds (seconds_to_mmss x) =
round(x)`, with the seconds field always zero-padded to width 2. -/
theorem mmss_roundtrip (q : ℚ) (h : 0 ≤ q) :
    parse_mmss_to_seconds (seconds_to_mmss q) = some (pythonRound q) := by
  have hs0 : 0 ≤ pythonRound q := pythonRound_nonneg h
  set s : ℤ := pythonRound q with hs
  set m : ℤ := Int.fdiv s 60 with hm
  set r : ℤ := Int.fmod s 60 with hr
  have hm0 : 0 ≤ m := Int.fdiv_nonneg hs0 (by norm_num)
  have hr0 : 0 ≤ r := by
    rw [hr, Int.fmod_eq_emod s (by norm_num)]
    exact Int.emod_nonneg s (by norm_num)
  have hrec : 60 * m + r = s := Int.fdiv_add_fmod s 60
  have hmchars : intChars m = natChars m.toNat := if_neg (by omega)
  show parse_mmss_to_seconds (intChars m ++ ':' :: pad2 r.toNat) = some s
  have hsplit : splitColon (intChars m ++ ':' :: pad2 r.toNat)
      = [intChars m, pad2 r.toNat] := by
    rw [splitColon_append _ _ (by
      intro c hc
      rw [hmchars] at hc
      exact digit_not_colon (natChars_digits m.toNat c hc))]
    rw [splitColon_noColon (fun c hc => digit_not_colon (pad2_digits r.toNat c hc))]
  have hpm : pyInt (intChars m) = some m := by
    rw [hmchars, pyInt_natChars, Int.toNat_of_nonneg hm0]
  have hpr : pyInt (pad2 r.toNat) = some r := by
    rw [pyInt_pad2, Int.toNat_of_nonneg hr0]
  simp only [parse_mmss_to_seconds, hsplit, hpm, hpr, Option.some.injEq]
  omega

/-- Witness for C9 at the concrete input 65 seconds (formatted as "1:05"). -/
theorem mmss_roundtrip_witness :
    0 ≤ (65 : ℚ) ∧ parse_mmss_to_seconds (seconds_to_mmss 65) = some (pythonRound 65) :=
  ⟨by norm_num, mmss_roundtrip 65 (by norm_num)⟩

/-! ## Speaker distribution (`compute_speaker_distribution`, `src/app.py`) -/

/-- One transcript utterance. -/
structure Segment where
  text : Str
  speaker : Str
  start_timestamp : Str
  end_timestamp : Str

/-- Per-segment processing of the loop in `compute_speaker_distribution`:
parse both timestamps, discard the segment when either fails or `end <= start`,
and normalize the speaker (`doctor` aliases to `agent`). -/
def segInfo (seg : Segment) : Option (Str × ℤ × ℤ) :=
  match parse_mmss_to_seconds seg.start_timestamp,
        parse_mmss_to_seconds seg.end_timestamp with
  | some s, some e =>
    if e ≤ s then none
    else
      let spkRaw := pyLower seg.speaker
      some (if spkRaw = "doctor".data then "agent".data else spkRaw, s, e)
  | _, _ => none

/-- Sort key used by `covered_intervals.sort(key=lambda x: x[0])`. -/
def startLe (a b : ℤ × ℤ) : Prop := a.1 ≤ b.1

instance : DecidableRel startLe := fun a b => inferInstanceAs (Decidable (a.1 ≤ b.1))

instance : IsTotal (ℤ × ℤ) startLe := ⟨fun a b => le_total a.1 b.1⟩

instance : IsTrans (ℤ × ℤ) startLe := ⟨fun _ _ _ h1 h2 => le_trans h1 h2⟩

/-- The interval-merging loop of `compute_speaker_distribution`: fold over the
sorted tail keeping a current interval, extending it while the next interval
starts no later than the current end. -/
def mergeLoop (curS curE : ℤ) : List (ℤ × ℤ) → List (ℤ × ℤ)
  | [] => [(curS, curE)]
  | (s, e) :: rest =>
    if s ≤ curE then mergeLoop curS (max curE e) rest
    else (curS, curE) :: mergeLoop s e rest

/-- Sort the interval list by start and merge overlapping/touching intervals. -/
def mergedIntervals (l : List (ℤ × ℤ)) : List (ℤ × ℤ) :=
  match List.insertionSort startLe l with
  | [] => []
  | (s, e) :: rest => mergeLoop s e rest

/-- The value `sum(e - s for s, e in merged)`. -/
def sumLens (l : List (ℤ × ℤ)) : ℤ := (l.map (fun p => p.2 - p.1)).sum

/-- Specification-level measure of an interval union: the set of unit cells
`[k, k+1)` covered by at least one interval.  Since all interval endpoints are
integers, the total length of the union is the cardinality of this set. -/
def cells (l : List (ℤ × ℤ)) : Finset ℤ :=
  l.foldr (fun p acc => Finset.Ico p.1 p.2 ∪ acc) ∅

/-- Output record of `compute_speaker_distribution`. -/
structure SpeakerDist where
  agent_seconds : ℚ
  customer_seconds : ℚ
  dead_air_seconds : ℚ
  agent_pct : ℚ
  customer_pct : ℚ
  dead_air_pct : ℚ

/-- Function `compute_speaker_distribution` from `src/app.py`.  The duration argument is
`None` or a float; Python truthiness makes `0.0` behave like `None`. -/
def compute_speaker_distribution (segments : List Segment)
    (total_duration : Option ℚ) : SpeakerDist :=
  let infos := segments.filterMap segInfo
  let agent_secs : ℤ :=
    ((infos.filter (fun i => i.1 = "agent".data)).map
      (fun i => max 0 (i.2.2 - i.2.1))).sum
  let customer_secs : ℤ :=
    ((infos.filter (fun i => i.1 = "customer".data)).map
      (fun i => max 0 (i.2.2 - i.2.1))).sum
  let covered : List (ℤ × ℤ) := infos.map (fun i => i.2)
  let dead_air : ℚ :=
    match total_duration with
    | some d =>
      if d ≠ 0 ∧ covered ≠ [] then
        max 0 (d - (sumLens (mergedIntervals covered) : ℚ))
      else 0
    | none => 0
  let dead_air_part : ℚ :=
    match total_duration with
    | some d => if d ≠ 0 then dead_air else 0
    | none => 0
  let total_parts : ℚ := (agent_secs : ℚ) + (customer_secs : ℚ) + dead_air_part
  let pct : ℚ → ℚ := fun x =>
    if 0 < total_parts then round2 (x / total_parts * 100) else 0
  { agent_seconds := round2 (agent_secs : ℚ)
    customer_seconds := round2 (customer_secs : ℚ)
    dead_air_seconds := round2 dead_air
    agent_pct := pct (agent_secs : ℚ)
    customer_pct := pct (customer_secs : ℚ)
    dead_air_pct := pct dead_air_part }

theorem cells_cons (p : ℤ × ℤ) (l : List (ℤ × ℤ)) :
    cells (p :: l) = Finset.Ico p.1 p.2 ∪ cells l := rfl

theorem mem_cells {l : List (ℤ × ℤ)} {k : ℤ} :
    k ∈ cells l ↔ ∃ p ∈ l, p.1 ≤ k ∧ k < p.2 := by
  induction l with
  | nil => simp [cells]
  | cons p t ih =>
    rw [cells_cons]
    simp only [Finset.mem_union, Finset.mem_Ico, ih, List.mem_cons]
    constructor
    · rintro (h | ⟨p', hp', h1, h2⟩)
      · exact ⟨p, Or.inl rfl, h.1, h.2⟩
      · exact ⟨p', Or.inr hp', h1, h2⟩
    · rintro ⟨p', hp' | hp', h1, h2⟩
      · subst hp'; exact Or.inl ⟨h1, h2⟩
      · exact Or.inr ⟨p', hp', h1, h2⟩

theorem cells_perm {l l' : List (ℤ × ℤ)} (h : l.Perm l') : cells l = cells l' := by
  ext k
  simp only [mem_cells]
  constructor
  · rintro ⟨p, hp, h1, h2⟩
    exact ⟨p, h.mem_iff.mp hp, h1, h2⟩
  · rintro ⟨p, hp, h1, h2⟩
    exact ⟨p, h.mem_iff.mpr hp, h1, h2⟩

theorem sumLens_cons (p : ℤ × ℤ) (l : List (ℤ × ℤ)) :
    sumLens (p :: l) = (p.2 - p.1) + sumLens l := by
  simp [sumLens]

theorem mergeLoop_sum (l : List (ℤ × ℤ)) : ∀ (curS curE : ℤ),
    List.Sorted startLe l →
    (∀ p ∈ l, curS ≤ p.1) →
    (∀ p ∈ l, p.1 < p.2) →
    curS < curE →
    sumLens (mergeLoop curS curE l) = ((Finset.Ico curS curE ∪ cells l).card : ℤ) := by
  induction l with
  | nil =>
    intro curS curE _ _ _ hcur
    simp only [mergeLoop, sumLens, List.map_cons, List.map_nil, List.sum_cons,
      List.sum_nil, cells, List.foldr_nil, Finset.union_empty, Int.card_Ico]
    omega
  | cons p rest ih =>
    intro curS curE hsorted hstart hvalid hcur
    obtain ⟨s, e⟩ := p
    have hpair : ∀ q ∈ rest, s ≤ q.1 :=
      fun q hq => (List.sorted_cons.mp hsorted).1 q hq
    have hrest_sorted : List.Sorted startLe rest := (List.sorted_cons.mp hsorted).2
    have hse : s < e := hvalid (s, e) (List.mem_cons_self _ _)
    have hcs : curS ≤ s := hstart (s, e) (List.mem_cons_self _ _)
    rw [mergeLoop]
    by_cases hle : s ≤ curE
    · rw [if_pos hle]
      rw [ih curS (max curE e) hrest_sorted
        (fun q hq => le_trans hcs (hpair q hq))
        (fun q hq => hvalid q (List.mem_cons_of_mem _ hq))
        (lt_max_of_lt_left hcur)]
      congr 2
      rw [cells_cons]
      rw [← Finset.union_assoc]
      congr 1
      ext k
      simp only [Finset.mem_union, Finset.mem_Ico]
      omega
    · rw [if_neg hle]
      rw [sumLens_cons]
      rw [ih s e hrest_sorted hpair
        (fun q hq => hvalid q (List.mem_cons_of_mem _ hq)) hse]
      rw [cells_cons, ← Finset.union_assoc]
      have hdisj : Disjoint (Finset.Ico curS curE) (Finset.Ico s e ∪ cells rest) := by
        rw [Finset.disjoint_left]
        intro k hk1 hk2
        have h1 : k < curE := (Finset.mem_Ico.mp hk1).2
        have h2 : s ≤ k := by
          rcases Finset.mem_union.mp hk2 with h | h
          · exact (Finset.mem_Ico.mp h).1
          · obtain ⟨q, hq, hq1, _⟩ := mem_cells.mp h
            exact le_trans (hpair q hq) hq1
        omega
      rw [Finset.union_assoc, Finset.card_union_of_disjoint hdisj]
      simp only [Int.card_Ico]
      push_cast [Int.toNat_of_nonneg (by omega : (0:ℤ) ≤ curE - curS)]
      ring

theorem sumLens_merged (l : List (ℤ × ℤ)) (hvalid : ∀ p ∈ l, p.1 < p.2)
    (hne : l ≠ []) : sumLens (mergedIntervals l) = ((cells l).card : ℤ) := by
  have hperm := List.perm_insertionSort startLe l
  have hsorted := List.sorted_insertionSort startLe l
  have hcells : cells (List.insertionSort startLe l) = cells l := cells_perm hperm
  rw [mergedIntervals]
  cases hs : List.insertionSort startLe l with
  | nil =>
    exfalso
    rw [hs] at hperm
    exact hne hperm.nil_eq.symm
  | cons p rest =>
    obtain ⟨s, e⟩ := p
    rw [hs] at hsorted hperm hcells
    have hvalid' : ∀ q ∈ (s, e) :: rest, q.1 < q.2 :=
      fun q hq => hvalid q (hperm.mem_iff.mp hq)
    rw [mergeLoop_sum rest s e (List.sorted_cons.mp hsorted).2
      (fun q hq => (List.sorted_cons.mp hsorted).1 q hq)
      (fun q hq => hvalid' q (List.mem_cons_of_mem _ hq))
      (hvalid' (s, e) (List.mem_cons_self _ _))]
    rw [show Finset.Ico s e ∪ cells rest = cells ((s, e) :: rest) from rfl, hcells]

theorem segInfo_lt {seg : Segment} {i : Str × ℤ × ℤ}
    (h : segInfo seg = some i) : i.2.1 < i.2.2 := by
  unfold segInfo at h
  split at h
  · split at h
    · exact absurd h (by simp)
    · simp only [Option.some.injEq] at h
      subst h
      dsimp only
      omega
  all_goals exact absurd h (by simp)

theorem round2_zero : round2 0 = 0 := by
  norm_num [round2, pythonRound]

/-- C7 counterexample: a transcript with no valid segments and a positive
supplied duration yields `dead_air_seconds = 0`, not the supplied duration, so
the claim as stated fails on the code. -/
theorem dead_air_no_segments_counterexample :
    (compute_speaker_distribution [] (some 100)).dead_air_seconds = 0 ∧
    ¬ (compute_speaker_distribution [] (some 100)).dead_air_seconds = 100 := by
  have h : (compute_speaker_distribution [] (some 100)).dead_air_seconds = 0 := by
    show round2 (if (100 : ℚ) ≠ 0 ∧ (([] : List (ℤ × ℤ)) ≠ []) then
      max 0 (100 - (sumLens (mergedIntervals []) : ℚ)) else 0) = 0
    rw [if_neg (by simp)]
    exact round2_zero
  exact ⟨h, by rw [h]; norm_num⟩

/-- C7 (amended): when a total duration `d` is supplied, `dead_air_seconds`
equals `max(0, d - |union of valid segment intervals|)` rounded to 2 decimals
PROVIDED `d` is nonzero and at least one valid segment exists (with no valid
segments or `d = 0` the code returns 0, and with no duration it returns 0);
the union length is measured role-independently as the number of covered unit
cells. -/
theorem dead_air_spec (segments : List Segment) (d : ℚ) :
    ((compute_speaker_distribution segments (some d)).dead_air_seconds =
      (if d ≠ 0 ∧ ((segments.filterMap segInfo).map (fun i => i.2)) ≠ [] then
        round2 (max 0 (d -
          ((cells ((segments.filterMap segInfo).map (fun i => i.2))).card : ℚ)))
      else 0))
    ∧ (compute_speaker_distribution segments none).dead_air_seconds = 0 := by
  constructor
  · by_cases hc : d ≠ 0 ∧ ((segments.filterMap segInfo).map (fun i => i.2)) ≠ []
    · have hval : ∀ p ∈ (segments.filterMap segInfo).map (fun i => i.2),
          p.1 < p.2 := by
        intro p hp
        obtain ⟨i, hi, rfl⟩ := List.mem_map.mp hp
        obtain ⟨seg, _, hsome⟩ := List.mem_filterMap.mp hi
        exact segInfo_lt hsome
      have hlen := sumLens_merged _ hval hc.2
      show round2 (if d ≠ 0 ∧ ((segments.filterMap segInfo).map (fun i => i.2)) ≠ [] then
        max 0 (d - (sumLens (mergedIntervals
          ((segments.filterMap segInfo).map (fun i => i.2))) : ℚ)) else 0) = _
      rw [if_pos hc, if_pos hc, hlen]
      norm_cast
    · show round2 (if d ≠ 0 ∧ ((segments.filterMap segInfo).map (fun i => i.2)) ≠ [] then
        max 0 (d - (sumLens (mergedIntervals
          ((segments.filterMap segInfo).map (fun i => i.2))) : ℚ)) else 0) = _
      rw [if_neg hc, if_neg hc]
      exact round2_zero
  · exact round2_zero

/-! ## QA matrix normalizer (`compute_ui_summary`, `src/app.py`) -/

/-- One QA matrix item.  `typo` models `typo_in_expected_response`: `none` when
the field is not a dict, otherwise the Python truthiness of its `has_typo`. -/
structure Item where
  question_id : Str
  question_text : Str
  status : Str
  expected_response : Str
  captured_response : Str
  typo : Option Bool
  deriving DecidableEq

/-- Function `_normalize_status` from `src/app.py`: case-insensitive substring match with
precedence incorrect > missing > clubbed > paraphrased > correct; unmatched
non-empty strings pass through (lower-cased), empty maps to `unknown`. -/
def _normalize_status (value : Str) : Str :=
  let s := pyLower (pyStrip value)
  if substr "incorrect".data s then "incorrect".data
  else if substr "missing".data s then "missing".data
  else if substr "clubbed".data s then "clubbed".data
  else if substr "paraphrased".data s then "paraphrased".data
  else if substr "correct".data s then "correct".data
  else if s = [] then "unknown".data else s

/-- The expected-response sentinels `{"", "na", "n/a", "not applicable",
"null", "none"}` of `compute_ui_summary`. -/
def ppSentinel (e : Str) : Bool :=
  e = [] || e = "na".data || e = "n/a".data || e = "not applicable".data ||
    e = "null".data || e = "none".data

/-- The personal-particulars exclusion test of `compute_ui_summary`:
`qid.startswith('PP.')` (case-sensitive, on the stripped id) AND the stripped,
lower-cased expected response is a sentinel. -/
def excludedPP (item : Item) : Bool :=
  "PP.".data.isPrefixOf (pyStrip item.question_id) &&
    ppSentinel (pyLower (pyStrip item.expected_response))

/-- Loop counters of `compute_ui_summary`. -/
structure UICounts where
  total : ℕ
  asked : ℕ
  missed : ℕ
  incorrect : ℕ
  paraphrased : ℕ
  clubbed : ℕ
  correct : ℕ
  deriving DecidableEq

/-- The per-item counter increments of `compute_ui_summary` for an included
item with the given normalized status. -/
def uiInc (c : UICounts) (status : Str) : UICounts :=
  let c2 := if status = "missing".data
    then { c with total := c.total + 1, missed := c.missed + 1 }
    else { c with total := c.total + 1, asked := c.asked + 1 }
  if status = "incorrect".data then { c2 with incorrect := c2.incorrect + 1 }
  else if status = "paraphrased".data then { c2 with paraphrased := c2.paraphrased + 1 }
  else if status = "clubbed".data then { c2 with clubbed := c2.clubbed + 1 }
  else if status = "correct".data then { c2 with correct := c2.correct + 1 }
  else c2

/-- One iteration of the `compute_ui_summary` loop. -/
def uiStep (c : UICounts) (item : Item) : UICounts :=
  if excludedPP item then c else uiInc c (_normalize_status item.status)

/-- The whole counting loop. -/
def uiCounts (items : List Item) : UICounts :=
  items.foldl uiStep ⟨0, 0, 0, 0, 0, 0, 0⟩

/-- The QA analysis report as consumed by the scoring engine: the matrix, the
length of `summary.critical_issues`, and `meta.doctor_wpm` after `float()`
coercion (`none` when absent or unparseable). -/
structure QAReport where
  qa_matrix : List Item
  critical_issues_count : ℕ
  doctor_wpm : Option ℚ

/-- Output of `compute_ui_summary`. -/
structure UISummary where
  overall_compliance_score : ℚ
  total_questions : ℕ
  questions_asked : ℕ
  questions_missed : ℕ
  incorrect_responses : ℕ
  paraphrased_responses : ℕ
  clubbed_questions : ℕ
  critical_errors : ℕ

/-- Function `compute_ui_summary` from `src/app.py`. -/
def compute_ui_summary (report : QAReport) : UISummary :=
  let c := uiCounts report.qa_matrix
  { overall_compliance_score :=
      if 0 < c.total then round2 ((c.correct : ℚ) / (c.total : ℚ) * 100) else 0
    total_questions := c.total
    questions_asked := c.asked
    questions_missed := c.missed
    incorrect_responses := c.incorrect
    paraphrased_responses := c.paraphrased
    clubbed_questions := c.clubbed
    critical_errors := report.critical_issues_count }

/-! ## QC scoring engine (`compute_qc_score`, `src/app.py`) -/

/-- Helper `pct_to_score`: percentage banding. -/
def pct_to_score (p : ℚ) : ℕ :=
  if p ≥ 100 then 100
  else if p ≥ 95 then 80
  else if p ≥ 85 then 60
  else if p ≥ 70 then 40
  else 20

/-- Helper `graded`: yes→100, partial→50, else 0. -/
def graded (val : Str) : ℕ :=
  if pyLower (pyStrip val) = "yes".data then 100
  else if pyLower (pyStrip val) = "partial".data then 50
  else 0

/-- Helper `binary`: yes→100, else 0. -/
def binary (val : Str) : ℕ :=
  if pyLower (pyStrip val) = "yes".data then 100 else 0

/-- Helper `contextual`: yes or na→100, else 0. -/
def contextual (val : Str) : ℕ :=
  if pyLower (pyStrip val) = "yes".data ∨ pyLower (pyStrip val) = "na".data
  then 100 else 0

/-- Helper `ros_score` from `compute_qc_score`: rate-of-speech banding on the
doctor's words-per-minute. -/
def ros_score (wpm : Option ℚ) : ℕ :=
  match wpm with
  | none => 50
  | some w =>
    if w = 0 then 50
    else if 120 ≤ w ∧ w ≤ 160 then 100
    else if (100 ≤ w ∧ w ≤ 119) ∨ (161 ≤ w ∧ w ≤ 180) then 70
    else if (80 ≤ w ∧ w ≤ 99) ∨ (181 ≤ w ∧ w ≤ 200) then 30
    else if w < 80 ∨ 200 < w then 0
    else 0

/-- The eleven behavioral QC parameter values (each the `value` string of the
corresponding entry of `qc_parameters`; missing values are `""`). -/
structure QcParams where
  greetings : Str
  call_opening : Str
  language_preference : Str
  id_validation : Str
  disclaimer : Str
  politeness : Str
  empathy : Str
  communication_skills : Str
  probing : Str
  observations : Str
  call_closure : Str

/-- Helper `complete_mer_pct`: `questions_asked / total_questions * 100` guarded by
truthiness of `total_questions`. -/
def complete_mer_pct (s : UISummary) : ℚ :=
  if s.total_questions ≠ 0
  then (s.questions_asked : ℚ) / (s.total_questions : ℚ) * 100
  else 0

/-- The 16-dimension score breakdown. -/
structure Breakdown where
  greetings : ℕ
  call_opening : ℕ
  language_preference : ℕ
  id_validation : ℕ
  disclaimer : ℕ
  politeness : ℕ
  empathy : ℕ
  communication_skills : ℕ
  probing : ℕ
  observations : ℕ
  call_closure : ℕ
  complete_mer_questions : ℕ
  correct_documentation : ℕ
  call_duration : ℕ
  rate_of_speech : ℕ
  visual_presentation : ℕ

/-- The total `sum(scores.values())`. -/
def breakdown_total (b : Breakdown) : ℕ :=
  b.greetings + b.call_opening + b.language_preference + b.id_validation +
  b.disclaimer + b.politeness + b.empathy + b.communication_skills +
  b.probing + b.observations + b.call_closure + b.complete_mer_questions +
  b.correct_documentation + b.call_duration + b.rate_of_speech +
  b.visual_presentation

/-- Result of `compute_qc_score`. -/
structure QCScore where
  total_score : ℕ
  max_score : ℕ
  percentage : ℚ
  category : String
  breakdown : Breakdown

/-- Function `compute_qc_score` from `src/app.py`. -/
def compute_qc_score (qa_report : QAReport) (qc : QcParams)
    (duration_sec : Option ℚ) : QCScore :=
  let summary := compute_ui_summary qa_report
  let cm := complete_mer_pct summary
  let cd := summary.overall_compliance_score
  let dur_min : ℚ :=
    match duration_sec with
    | some d => if d ≠ 0 then d / 60 else 0
    | none => 0
  let duration_score : ℕ :=
    if dur_min ≥ 10 then 100 else if dur_min ≥ 7 then 70 else 30
  let b : Breakdown :=
    { greetings := binary qc.greetings
      call_opening := graded qc.call_opening
      language_preference := binary qc.language_preference
      id_validation := binary qc.id_validation
      disclaimer := binary qc.disclaimer
      politeness := graded qc.politeness
      empathy := contextual qc.empathy
      communication_skills := graded qc.communication_skills
      probing := contextual qc.probing
      observations := contextual qc.observations
      call_closure := graded qc.call_closure
      complete_mer_questions := pct_to_score cm
      correct_documentation := pct_to_score cd
      call_duration := duration_score
      rate_of_speech := ros_score qa_report.doctor_wpm
      visual_presentation := 100 }
  let total := breakdown_total b
  { total_score := total
    max_score := 1600
    percentage := round2 ((total : ℚ) / 1600 * 100)
    category :=
      if total ≥ 1500 then "Good"
      else if total ≥ 1400 then "Above Average"
      else if total ≥ 1300 then "Average"
      else "Poor"
    breakdown := b }

-- #### Per-field accounting for the `compute_ui_summary` loop

theorem uiInc_total (c : UICounts) (st : Str) : (uiInc c st).total = c.total + 1 := by
  simp only [uiInc]
  split_ifs <;> simp

theorem uiInc_asked (c : UICounts) (st : Str) :
    (uiInc c st).asked = c.asked + (if st = "missing".data then 0 else 1) := by
  simp only [uiInc]
  split_ifs <;> simp

theorem uiInc_incorrect (c : UICounts) (st : Str) :
    (uiInc c st).incorrect = c.incorrect +
      (if st = "incorrect".data then 1 else 0) := by
  simp only [uiInc]
  split_ifs <;> simp

theorem uiInc_paraphrased (c : UICounts) (st : Str) :
    (uiInc c st).paraphrased = c.paraphrased +
      (if st = "incorrect".data then 0
       else if st = "paraphrased".data then 1 else 0) := by
  simp only [uiInc]
  split_ifs <;> simp

theorem uiInc_clubbed (c : UICounts) (st : Str) :
    (uiInc c st).clubbed = c.clubbed +
      (if st = "incorrect".data then 0
       else if st = "paraphrased".data then 0
       else if st = "clubbed".data then 1 else 0) := by
  simp only [uiInc]
  split_ifs <;> simp

theorem uiInc_correct (c : UICounts) (st : Str) :
    (uiInc c st).correct = c.correct +
      (if st = "incorrect".data then 0
       else if st = "paraphrased".data then 0
       else if st = "clubbed".data then 0
       else if st = "correct".data then 1 else 0) := by
  simp only [uiInc]
  split_ifs <;> simp

/-- Per-item contribution to `total`. -/
def dTotal (it : Item) : ℕ := if excludedPP it then 0 else 1

/-- Per-item contribution to `asked`. -/
def dAsked (it : Item) : ℕ :=
  if excludedPP it then 0
  else if _normalize_status it.status = "missing".data then 0 else 1

/-- Per-item contribution to `incorrect`. -/
def dIncorrect (it : Item) : ℕ :=
  if excludedPP it then 0
  else if _normalize_status it.status = "incorrect".data then 1 else 0

/-- Per-item contribution to `paraphrased`. -/
def dParaphrased (it : Item) : ℕ :=
  if excludedPP it then 0
  else if _normalize_status it.status = "incorrect".data then 0
  else if _normalize_status it.status = "paraphrased".data then 1 else 0

/-- Per-item contribution to `clubbed`. -/
def dClubbed (it : Item) : ℕ :=
  if excludedPP it then 0
  else if _normalize_status it.status = "incorrect".data then 0
  else if _normalize_status it.status = "paraphrased".data then 0
  else if _normalize_status it.status = "clubbed".data then 1 else 0

/-- Per-item contribution to `correct`. -/
def dCorrect (it : Item) : ℕ :=
  if excludedPP it then 0
  else if _normalize_status it.status = "incorrect".data then 0
  else if _normalize_status it.status = "paraphrased".data then 0
  else if _normalize_status it.status = "clubbed".data then 0
  else if _normalize_status it.status = "correct".data then 1 else 0

theorem uiStep_total (c : UICounts) (it : Item) :
    (uiStep c it).total = c.total + dTotal it := by
  unfold uiStep dTotal
  split_ifs <;> simp [uiInc_total]

theorem uiStep_asked (c : UICounts) (it : Item) :
    (uiStep c it).asked = c.asked + dAsked it := by
  unfold uiStep dAsked
  split_ifs <;> simp_all [uiInc_asked]

theorem uiStep_incorrect (c : UICounts) (it : Item) :
    (uiStep c it).incorrect = c.incorrect + dIncorrect it := by
  unfold uiStep dIncorrect
  split_ifs <;> simp_all [uiInc_incorrect]

theorem uiStep_paraphrased (c : UICounts) (it : Item) :
    (uiStep c it).paraphrased = c.paraphrased + dParaphrased it := by
  unfold uiStep dParaphrased
  split_ifs <;> simp_all [uiInc_paraphrased]

theorem uiStep_clubbed (c : UICounts) (it : Item) :
    (uiStep c it).clubbed = c.clubbed + dClubbed it := by
  unfold uiStep dClubbed
  split_ifs <;> simp_all [uiInc_clubbed]

theorem uiStep_correct (c : UICounts) (it : Item) :
    (uiStep c it).correct = c.correct + dCorrect it := by
  unfold uiStep dCorrect
  split_ifs <;> simp_all [uiInc_correct]

theorem foldl_uiStep_total (l : List Item) (c : UICounts) :
    (l.foldl uiStep c).total = c.total + (l.map dTotal).sum := by
  induction l generalizing c with
  | nil => simp
  | cons it t ih =>
    rw [List.foldl_cons, ih, uiStep_total, List.map_cons, List.sum_cons,
      Nat.add_assoc]

theorem foldl_uiStep_asked (l : List Item) (c : UICounts) :
    (l.foldl uiStep c).asked = c.asked + (l.map dAsked).sum := by
  induction l generalizing c with
  | nil => simp
  | cons it t ih =>
    rw [List.foldl_cons, ih, uiStep_asked, List.map_cons, List.sum_cons,
      Nat.add_assoc]

theorem foldl_uiStep_incorrect (l : List Item) (c : UICounts) :
    (l.foldl uiStep c).incorrect = c.incorrect + (l.map dIncorrect).sum := by
  induction l generalizing c with
  | nil => simp
  | cons it t ih =>
    rw [List.foldl_cons, ih, uiStep_incorrect, List.map_cons, List.sum_cons,
      Nat.add_assoc]

theorem foldl_uiStep_paraphrased (l : List Item) (c : UICounts) :
    (l.foldl uiStep c).paraphrased = c.paraphrased + (l.map dParaphrased).sum := by
  induction l generalizing c with
  | nil => simp
  | cons it t ih =>
    rw [List.foldl_cons, ih, uiStep_paraphrased, List.map_cons, List.sum_cons,
      Nat.add_assoc]

theorem foldl_uiStep_clubbed (l : List Item) (c : UICounts) :
    (l.foldl uiStep c).clubbed = c.clubbed + (l.map dClubbed).sum := by
  induction l generalizing c with
  | nil => simp
  | cons it t ih =>
    rw [List.foldl_cons, ih, uiStep_clubbed, List.map_cons, List.sum_cons,
      Nat.add_assoc]

theorem foldl_uiStep_correct (l : List Item) (c : UICounts) :
    (l.foldl uiStep c).correct = c.correct + (l.map dCorrect).sum := by
  induction l generalizing c with
  | nil => simp
  | cons it t ih =>
    rw [List.foldl_cons, ih, uiStep_correct, List.map_cons, List.sum_cons,
      Nat.add_assoc]

theorem isPrefixOf_self (l : Str) : l.isPrefixOf l = true := by
  induction l with
  | nil => rfl
  | cons c t ih => simp [List.isPrefixOf, ih]

theorem substr_self (x : Str) : substr x x = true := by
  cases x with
  | nil => rfl
  | cons c t => simp [substr, isPrefixOf_self]

/-- C4 counterexample: the `PP.` prefix test in `compute_ui_summary` is
case-SENSITIVE, so an item with `question_id = "pp.Name"` and sentinel
expected response "NA" is still counted (the claim's case-insensitive reading
would exclude it, making `total_questions = 0`). -/
theorem pp_exclusion_counterexample :
    (compute_ui_summary ⟨[⟨"pp.Name".data, [], "Correct".data, "NA".data, [], none⟩],
      0, none⟩).total_questions = 1 ∧
    (compute_ui_summary ⟨[⟨"pp.Name".data, [], "Correct".data, "NA".data, [], none⟩],
      0, none⟩).questions_asked = 1 := by
  constructor <;> decide

/-- C4 (amended): an item whose STRIPPED `question_id` starts with `PP.`
(case-sensitively) and whose trimmed lower-cased `expected_response` is a
sentinel contributes to none of the counters of `compute_ui_summary` (removing
it leaves the whole summary unchanged); a `PP.`-prefixed item whose expected
response is a real value is counted in `total_questions`. -/
theorem pp_exclusion_spec (l1 l2 : List Item) (it it2 : Item) (k : ℕ)
    (w : Option ℚ)
    (hex : excludedPP it = true)
    (hpp : "PP.".data.isPrefixOf (pyStrip it2.question_id) = true)
    (hreal : ppSentinel (pyLower (pyStrip it2.expected_response)) = false) :
    compute_ui_summary ⟨l1 ++ it :: l2, k, w⟩ = compute_ui_summary ⟨l1 ++ l2, k, w⟩ ∧
    (compute_ui_summary ⟨l1 ++ it2 :: l2, k, w⟩).total_questions =
      (compute_ui_summary ⟨l1 ++ l2, k, w⟩).total_questions + 1 := by
  have hc : uiCounts (l1 ++ it :: l2) = uiCounts (l1 ++ l2) := by
    unfold uiCounts
    rw [List.foldl_append, List.foldl_append, List.foldl_cons]
    congr 1
    unfold uiStep
    rw [if_pos hex]
  have hex2 : excludedPP it2 = false := by
    unfold excludedPP
    rw [hreal]
    simp
  constructor
  · simp only [compute_ui_summary, hc]
  · simp only [compute_ui_summary, uiCounts, foldl_uiStep_total, List.map_append,
      List.sum_append, List.map_cons, List.sum_cons, dTotal, hex2]
    simp [Nat.add_comm, Nat.add_assoc, Nat.add_left_comm]

/-- Witness for C4 at concrete items: a `PP.Name` item with expected response
"NA" is dropped from the summary, one with "John Doe" is counted. -/
theorem pp_exclusion_witness :
    compute_ui_summary ⟨[⟨"PP.Name".data, [], "Correct".data, "NA".data, [], none⟩],
        0, none⟩ = compute_ui_summary ⟨[], 0, none⟩ ∧
    (compute_ui_summary ⟨[⟨"PP.Name".data, [], "Correct".data, "John Doe".data, [],
        none⟩], 0, none⟩).total_questions =
      (compute_ui_summary ⟨[], 0, none⟩).total_questions + 1 := by
  have h := pp_exclusion_spec [] []
    ⟨"PP.Name".data, [], "Correct".data, "NA".data, [], none⟩
    ⟨"PP.Name".data, [], "Correct".data, "John Doe".data, [], none⟩ 0 none
    (by decide) (by decide) (by decide)
  exact h

/-- C5 counterexample: the status "weird" matches none of the five substrings;
the code normalizes it to itself ("weird"), not to "unknown", and an item
carrying it IS counted toward `questions_asked` (the claim says it is not). -/
theorem unknown_status_counterexample :
    _normalize_status "weird".data = "weird".data ∧
    ¬ _normalize_status "weird".data = "unknown".data ∧
    (compute_ui_summary ⟨[⟨"1.1".data, [], "weird".data, "x".data, [], none⟩],
      0, none⟩).questions_asked = 1 := by
  refine ⟨by decide, by decide, by decide⟩

/-- C5 (amended): a status matching none of the five substrings normalizes to
its trimmed lower-cased form (or "unknown" when that is empty), and an
included item carrying it counts toward `total_questions` AND
`questions_asked` but toward none of the incorrect/paraphrased/clubbed/correct
counters. -/
theorem unknown_status_spec (s : Str)
    (h1 : substr "incorrect".data (pyLower (pyStrip s)) = false)
    (h2 : substr "missing".data (pyLower (pyStrip s)) = false)
    (h3 : substr "clubbed".data (pyLower (pyStrip s)) = false)
    (h4 : substr "paraphrased".data (pyLower (pyStrip s)) = false)
    (h5 : substr "correct".data (pyLower (pyStrip s)) = false)
    (l1 l2 : List Item) (it : Item) (k : ℕ) (w : Option ℚ)
    (hst : it.status = s) (hex : excludedPP it = false) :
    _normalize_status s =
      (if pyLower (pyStrip s) = [] then "unknown".data else pyLower (pyStrip s)) ∧
    (compute_ui_summary ⟨l1 ++ it :: l2, k, w⟩).total_questions =
      (compute_ui_summary ⟨l1 ++ l2, k, w⟩).total_questions + 1 ∧
    (compute_ui_summary ⟨l1 ++ it :: l2, k, w⟩).questions_asked =
      (compute_ui_summary ⟨l1 ++ l2, k, w⟩).questions_asked + 1 ∧
    (compute_ui_summary ⟨l1 ++ it :: l2, k, w⟩).incorrect_responses =
      (compute_ui_summary ⟨l1 ++ l2, k, w⟩).incorrect_responses ∧
    (compute_ui_summary ⟨l1 ++ it :: l2, k, w⟩).paraphrased_responses =
      (compute_ui_summary ⟨l1 ++ l2, k, w⟩).paraphrased_responses ∧
    (compute_ui_summary ⟨l1 ++ it :: l2, k, w⟩).clubbed_questions =
      (compute_ui_summary ⟨l1 ++ l2, k, w⟩).clubbed_questions ∧
    (uiCounts (l1 ++ it :: l2)).correct = (uiCounts (l1 ++ l2)).correct := by
  have hnorm : _normalize_status s =
      (if pyLower (pyStrip s) = [] then "unknown".data else pyLower (pyStrip s)) := by
    unfold _normalize_status
    simp only [h1, h2, h3, h4, h5, Bool.false_eq_true, if_false]
  have key : ∀ lit : Str, substr lit (pyLower (pyStrip s)) = false →
      ("unknown".data : Str) ≠ lit → _normalize_status s ≠ lit := by
    intro lit hlit hulit heq
    rw [hnorm] at heq
    by_cases hemp : pyLower (pyStrip s) = []
    · rw [if_pos hemp] at heq
      exact hulit heq
    · rw [if_neg hemp] at heq
      subst heq
      rw [substr_self] at hlit
      exact absurd hlit (by simp)
  have hinc := key "incorrect".data h1 (by decide)
  have hmiss := key "missing".data h2 (by decide)
  have hclub := key "clubbed".data h3 (by decide)
  have hpara := key "paraphrased".data h4 (by decide)
  have hcorr := key "correct".data h5 (by decide)
  have hdt : dTotal it = 1 := by simp [dTotal, hex]
  have hda : dAsked it = 1 := by simp [dAsked, hex, hst, hmiss]
  have hdi : dIncorrect it = 0 := by simp [dIncorrect, hex, hst, hinc]
  have hdp : dParaphrased it = 0 := by simp [dParaphrased, hex, hst, hinc, hpara]
  have hdc : dClubbed it = 0 := by simp [dClubbed, hex, hst, hinc, hpara, hclub]
  have hdco : dCorrect it = 0 := by
    simp [dCorrect, hex, hst, hinc, hpara, hclub, hcorr]
  refine ⟨hnorm, ?_, ?_, ?_, ?_, ?_, ?_⟩
  · simp only [compute_ui_summary, uiCounts, foldl_uiStep_total, List.map_append,
      List.sum_append, List.map_cons, List.sum_cons, hdt]
    omega
  · simp only [compute_ui_summary, uiCounts, foldl_uiStep_asked, List.map_append,
      List.sum_append, List.map_cons, List.sum_cons, hda]
    omega
  · simp only [compute_ui_summary, uiCounts, foldl_uiStep_incorrect,
      List.map_append, List.sum_append, List.map_cons, List.sum_cons, hdi]
    omega
  · simp only [compute_ui_summary, uiCounts, foldl_uiStep_paraphrased,
      List.map_append, List.sum_append, List.map_cons, List.sum_cons, hdp]
    omega
  · simp only [compute_ui_summary, uiCounts, foldl_uiStep_clubbed,
      List.map_append, List.sum_append, List.map_cons, List.sum_cons, hdc]
    omega
  · simp only [uiCounts, foldl_uiStep_correct, List.map_append,
      List.sum_append, List.map_cons, List.sum_cons, hdco]
    omega

/-- Witness for C5 at the concrete status "weird". -/
theorem unknown_status_witness :
    _normalize_status "weird".data =
      (if pyLower (pyStrip "weird".data) = [] then "unknown".data
       else pyLower (pyStrip "weird".data)) ∧
    (compute_ui_summary ⟨[(⟨"1.1".data, [], "weird".data, "x".data, [], none⟩ : Item)],
        0, none⟩).total_questions =
      (compute_ui_summary ⟨[], 0, none⟩).total_questions + 1 := by
  have h := unknown_status_spec "weird".data (by decide) (by decide) (by decide)
    (by decide) (by decide) [] [] ⟨"1.1".data, [], "weird".data, "x".data, [], none⟩
    0 none rfl (by decide)
  exact ⟨h.1, h.2.1⟩

/-- C6: the rate-of-speech banding of `compute_qc_score` over
`meta.doctor_wpm`: unavailable or exactly 0 → 50; 120–160 → 100;
100–119 or 161–180 → 70; 80–99 or 181–200 → 30; otherwise below 80 or
above 200 → 0. -/
theorem ros_score_spec :
    ros_score none = 50 ∧ ros_score (some 0) = 50 ∧
    (∀ w : ℚ, 120 ≤ w → w ≤ 160 → ros_score (some w) = 100) ∧
    (∀ w : ℚ, (100 ≤ w ∧ w ≤ 119) ∨ (161 ≤ w ∧ w ≤ 180) → ros_score (some w) = 70) ∧
    (∀ w : ℚ, (80 ≤ w ∧ w ≤ 99) ∨ (181 ≤ w ∧ w ≤ 200) → ros_score (some w) = 30) ∧
    (∀ w : ℚ, w ≠ 0 → (w < 80 ∨ 200 < w) → ros_score (some w) = 0) := by
  refine ⟨rfl, by norm_num [ros_score], ?_, ?_, ?_, ?_⟩
  · intro w hw1 hw2
    simp only [ros_score]
    rw [if_neg (by intro h; rw [h] at hw1; norm_num at hw1), if_pos ⟨hw1, hw2⟩]
  · intro w hw
    simp only [ros_score]
    rcases hw with ⟨hw1, hw2⟩ | ⟨hw1, hw2⟩ <;>
      rw [if_neg (by intro h; subst h; norm_num at hw1),
        if_neg (by rintro ⟨ha, hb⟩; linarith)]
    · rw [if_pos (Or.inl ⟨hw1, hw2⟩)]
    · rw [if_pos (Or.inr ⟨hw1, hw2⟩)]
  · intro w hw
    simp only [ros_score]
    rcases hw with ⟨hw1, hw2⟩ | ⟨hw1, hw2⟩ <;>
      rw [if_neg (by intro h; subst h; norm_num at hw1),
        if_neg (by rintro ⟨ha, hb⟩; linarith),
        if_neg (by rintro (⟨ha, hb⟩ | ⟨ha, hb⟩) <;> linarith)]
    · rw [if_pos (Or.inl ⟨hw1, hw2⟩)]
    · rw [if_pos (Or.inr ⟨hw1, hw2⟩)]
  · intro w hw0 hw
    simp only [ros_score]
    rw [if_neg hw0,
      if_neg (by rintro ⟨ha, hb⟩; rcases hw with h | h <;> linarith),
      if_neg (by rintro (⟨ha, hb⟩ | ⟨ha, hb⟩) <;> rcases hw with h | h <;> linarith),
      if_neg (by rintro (⟨ha, hb⟩ | ⟨ha, hb⟩) <;> rcases hw with h | h <;> linarith),
      if_pos hw]

/-- Witness for C6 at the concrete WPM values 140, 90, null, 0 and 201. -/
theorem ros_score_witness :
    ros_score (some 140) = 100 ∧ ros_score (some 90) = 30 ∧
    ros_score none = 50 ∧ ros_score (some 0) = 50 ∧ ros_score (some 201) = 0 :=
  ⟨ros_score_spec.2.2.1 140 (by norm_num) (by norm_num),
   ros_score_spec.2.2.2.2.1 90 (Or.inl ⟨by norm_num, by norm_num⟩),
   ros_score_spec.1,
   ros_score_spec.2.1,
   ros_score_spec.2.2.2.2.2 201 (by norm_num) (Or.inr (by norm_num))⟩

/-- C1: with all eleven behavioral QC dimensions "Yes", both computed QA
percentages at 100, duration at least 600 seconds and doctor WPM 140,
`compute_qc_score` returns `total_score = 1600` and category "Good". -/
theorem qc_all_yes_spec (qa : QAReport) (qc : QcParams) (d : ℚ)
    (hg1 : qc.greetings = "Yes".data) (hg2 : qc.call_opening = "Yes".data)
    (hg3 : qc.language_preference = "Yes".data) (hg4 : qc.id_validation = "Yes".data)
    (hg5 : qc.disclaimer = "Yes".data) (hg6 : qc.politeness = "Yes".data)
    (hg7 : qc.empathy = "Yes".data) (hg8 : qc.communication_skills = "Yes".data)
    (hg9 : qc.probing = "Yes".data) (hg10 : qc.observations = "Yes".data)
    (hg11 : qc.call_closure = "Yes".data)
    (hcm : complete_mer_pct (compute_ui_summary qa) = 100)
    (hcd : (compute_ui_summary qa).overall_compliance_score = 100)
    (hd : 600 ≤ d) (hw : qa.doctor_wpm = some 140) :
    (compute_qc_score qa qc (some d)).total_score = 1600 ∧
    (compute_qc_score qa qc (some d)).category = "Good" := by
  have hb : binary "Yes".data = 100 := by decide
  have hgr : graded "Yes".data = 100 := by decide
  have hco : contextual "Yes".data = 100 := by decide
  have hros : ros_score (some 140) = 100 := by norm_num [ros_score]
  have hp : pct_to_score 100 = 100 := by norm_num [pct_to_score]
  have hd0 : ¬ (d = 0) := by intro h; rw [h] at hd; norm_num at hd
  have hdm : d / 60 ≥ 10 := by linarith
  constructor
  · simp only [compute_qc_score, hg1, hg2, hg3, hg4, hg5, hg6, hg7, hg8, hg9,
      hg10, hg11, hcm, hcd, hw, hb, hgr, hco, hros, hp, ne_eq, hd0,
      not_false_eq_true, if_true, if_pos hdm]
    norm_num [breakdown_total]
  · simp only [compute_qc_score, hg1, hg2, hg3, hg4, hg5, hg6, hg7, hg8, hg9,
      hg10, hg11, hcm, hcd, hw, hb, hgr, hco, hros, hp, ne_eq, hd0,
      not_false_eq_true, if_true, if_pos hdm]
    norm_num [breakdown_total]

/-- Witness for C1: a one-item fully correct QA matrix, all QC values "Yes",
650-second duration, doctor WPM 140. -/
theorem qc_all_yes_witness :
    (compute_qc_score ⟨[⟨"1.1".data, [], "Correct".data, "x".data, [], none⟩],
        0, some 140⟩
      ⟨"Yes".data, "Yes".data, "Yes".data, "Yes".data, "Yes".data, "Yes".data,
        "Yes".data, "Yes".data, "Yes".data, "Yes".data, "Yes".data⟩
      (some 650)).total_score = 1600 ∧
    (compute_qc_score ⟨[⟨"1.1".data, [], "Correct".data, "x".data, [], none⟩],
        0, some 140⟩
      ⟨"Yes".data, "Yes".data, "Yes".data, "Yes".data, "Yes".data, "Yes".data,
        "Yes".data, "Yes".data, "Yes".data, "Yes".data, "Yes".data⟩
      (some 650)).category = "Good" := by
  have hc : uiCounts [⟨"1.1".data, [], "Correct".data, "x".data, [], none⟩]
      = ⟨1, 1, 0, 0, 0, 0, 1⟩ := by decide
  exact qc_all_yes_spec _ _ 650 rfl rfl rfl rfl rfl rfl rfl rfl rfl rfl rfl
    (by
      simp only [complete_mer_pct, compute_ui_summary, hc]
      norm_num)
    (by
      simp only [compute_ui_summary, hc]
      norm_num [round2, pythonRound])
    (by norm_num) rfl

/-! ## Decision rule engine (`summarize_record`, `src/decision_builder.py`) -/

/-- Issue detail payloads that the claims need to distinguish: a `{'count': n}`
dict with a list length, one with a coerced integer, or any other payload. -/
inductive Detail
  | count (n : ℕ)
  | countInt (n : ℤ)
  | other
  deriving DecidableEq

/-- One `{'issue': ..., 'details': ...}` entry. -/
structure Issue where
  issue : String
  details : Detail
  deriving DecidableEq

/-- The four buckets returned by `summarize_record`. -/
structure Issues where
  ASSIGNBACK : List Issue
  OPS_ATTENTION : List Issue
  FLAGS : List Issue
  TECH_ISSUES : List Issue

/-- A Python value in an `examples`/`timestamps` position: a list of known
length, a truthy non-list, or something falsy (which `or []` turns into an
empty list). -/
inductive LVal
  | list (len : ℕ)
  | nonlistTruthy
  | falsy
  deriving DecidableEq

/-- Test `isinstance(x, list) and len(x) >= 2` after `x = x or []`. -/
def lenGe2 : LVal → Bool
  | .list n => 2 ≤ n
  | _ => false

/-- A behavioral flag object `{value, examples, timestamps}`. -/
structure Prompt where
  value : BVal
  examples : LVal
  timestamps : LVal

/-- Default for `beh.get('prompting_detected') or \x7b\x7d` when the flag is absent. -/
def emptyPrompt : Prompt := ⟨BVal.other, LVal.falsy, LVal.falsy⟩

/-- A value fed to Python `int(x or 0)`: falsy (coerces to 0), something that
coerces to an integer, or something that raises. -/
inductive IntVal
  | falsy
  | num (n : ℤ)
  | bad
  deriving DecidableEq

/-- Coercion `int(x or 0)` under the surrounding try/except. -/
def intCoerce : IntVal → Option ℤ
  | .falsy => some 0
  | .num n => some n
  | .bad => none

/-- The record-level inputs of `summarize_record` after JSON loading: the QA
matrix plus the video/technical/behavioral/documentation/data-validation and
QC-parameter fields the rules read.  `height_cm`/`weight_kg`: `none` = absent
(or JSON null), `some none` = present but `float()` raises, `some (some q)` =
parses to `q`. -/
structure QARecord where
  qa_matrix : List Item
  attire_check : Str
  visibility_status : Str
  privacy_maintained : BVal
  recording_exists : Option Bool
  audibility_level : Str
  prompting : Option Prompt
  hesitation : Option Prompt
  spelling_errors : IntVal
  height_cm : Option (Option ℚ)
  weight_kg : Option (Option ℚ)
  disclaimer_value : Option Str
  call_opening_value : Str
  politeness_value : Option Str

/-- Selection `[it for it in qa_matrix if str(it.get('status','')).lower() == 'incorrect']`. -/
def incorrectItems (qa : List Item) : List Item :=
  qa.filter (fun it => pyLower it.status == "incorrect".data)

/-- Items whose `typo_in_expected_response` is a dict with truthy `has_typo`. -/
def typoItems (qa : List Item) : List Item :=
  qa.filter (fun it => it.typo.getD false)

/-- Count of clubbed-status items. -/
def clubbedCount (qa : List Item) : ℕ :=
  (qa.filter (fun it => pyLower it.status == "clubbed".data)).length

/-- Missing-status items. -/
def missingItems (qa : List Item) : List Item :=
  qa.filter (fun it => pyLower it.status == "missing".data)


/-- Binding `pr = beh.get('prompting_detected') or \x7b\x7d` resolved. -/
def promptOf (r : QARecord) : Prompt := r.prompting.getD emptyPrompt

/-- The "major prompting" predicate: value is true and there are at least two
examples or at least two timestamps. -/
def majorPromptCond (r : QARecord) : Bool :=
  (to_bool (promptOf r).value == some true) &&
    (lenGe2 (promptOf r).examples || lenGe2 (promptOf r).timestamps)

/-- ASSIGNBACK: questions with status Missing exist. -/
def abQuestionsMissing (r : QARecord) : List Issue :=
  if (missingItems r.qa_matrix).isEmpty then [] else [⟨"Questions missing", .other⟩]

/-- ASSIGNBACK: a `PP.Name` item is Incorrect. -/
def abPPName (r : QARecord) : List Issue :=
  if r.qa_matrix.any (fun it => pyLower (pyStrip it.question_id) == "pp.name".data &&
      pyLower it.status == "incorrect".data)
  then [⟨"Customer name incorrect (PP.Name)", .other⟩] else []

/-- ASSIGNBACK: a `PP.ID.*` item is Missing. -/
def abIdMissing (r : QARecord) : List Issue :=
  if (r.qa_matrix.filter (fun it => "pp.id.".data.isPrefixOf (pyLower it.question_id) &&
      pyLower it.status == "missing".data)).isEmpty then []
  else [⟨"Missing ID proof verification", .other⟩]

/-- ASSIGNBACK: two or more Clubbed items. -/
def abClubbed (r : QARecord) : List Issue :=
  if 2 ≤ clubbedCount r.qa_matrix
  then [⟨"2+ clubbed questions", .count (clubbedCount r.qa_matrix)⟩] else []

/-- ASSIGNBACK: eight or more Incorrect items. -/
def abManyIncorrect (r : QARecord) : List Issue :=
  if 8 ≤ (incorrectItems r.qa_matrix).length
  then [⟨"Many incorrect documentation entries",
    .count (incorrectItems r.qa_matrix).length⟩] else []

/-- ASSIGNBACK: disclaimer value coerces to False. -/
def abDisclaimer (r : QARecord) : List Issue :=
  if to_bool (match r.disclaimer_value with
      | some s => BVal.str s
      | none => BVal.other) == some false
  then [⟨"Disclaimer missing", .other⟩] else []

/-- ASSIGNBACK: call_opening value is "no". -/
def abCallOpening (r : QARecord) : List Issue :=
  if pyLower (pyStrip r.call_opening_value) == "no".data
  then [⟨"Doctor self-introduction missing", .other⟩] else []

/-- ASSIGNBACK: major prompting. -/
def abMajorPrompting (r : QARecord) : List Issue :=
  if majorPromptCond r then [⟨"Major agent-led prompting detected", .other⟩] else []

/-- ASSIGNBACK: doctor not wearing an apron. -/
def abAttire (r : QARecord) : List Issue :=
  if (pyLower (pyStrip r.attire_check) == "no".data ||
      pyLower (pyStrip r.attire_check) == "missing_apron".data ||
      pyLower (pyStrip r.attire_check) == "not_wearing_apron".data)
  then [⟨"Doctor not wearing apron", .other⟩] else []

/-- The ASSIGNBACK bucket, rules in source order. -/
def assignbackIssues (r : QARecord) : List Issue :=
  abQuestionsMissing r ++ abPPName r ++ abIdMissing r ++ abClubbed r ++
  abManyIncorrect r ++ abDisclaimer r ++ abCallOpening r ++
  abMajorPrompting r ++ abAttire r

/-- OPS_ATTENTION: three or more typo-flagged items. -/
def opTypos (r : QARecord) : List Issue :=
  if 3 ≤ (typoItems r.qa_matrix).length
  then [⟨"Multiple typos in MER entries", .count (typoItems r.qa_matrix).length⟩]
  else []

/-- OPS_ATTENTION: three or more spelling errors. -/
def opSpelling (r : QARecord) : List Issue :=
  match intCoerce r.spelling_errors with
  | some n => if 3 ≤ n then [⟨"3+ spelling errors in MER", .countInt n⟩] else []
  | none => []

/-- OPS_ATTENTION: a `PP.DOB` item is Incorrect. -/
def opDob (r : QARecord) : List Issue :=
  if r.qa_matrix.any (fun it => pyLower (pyStrip it.question_id) == "pp.dob".data &&
      pyLower it.status == "incorrect".data)
  then [⟨"Incorrect date of birth", .other⟩] else []

/-- OPS_ATTENTION: four to seven Incorrect items. -/
def opFourToSeven (r : QARecord) : List Issue :=
  if 4 ≤ (incorrectItems r.qa_matrix).length ∧ (incorrectItems r.qa_matrix).length ≤ 7
  then [⟨"4-7 incorrect documentation entries",
    .count (incorrectItems r.qa_matrix).length⟩] else []

/-- OPS_ATTENTION: item `1.4`/`1.4.` is Incorrect. -/
def opOccupation (r : QARecord) : List Issue :=
  if r.qa_matrix.any (fun it => (pyLower (pyStrip it.question_id) == "1.4".data ||
      pyLower (pyStrip it.question_id) == "1.4.".data) &&
      pyLower it.status == "incorrect".data)
  then [⟨"Incorrect occupation (1.4)", .other⟩] else []

/-- The OPS_ATTENTION bucket, rules in source order. -/
def opsIssues (r : QARecord) : List Issue :=
  opTypos r ++ opSpelling r ++ opDob r ++ opFourToSeven r ++ opOccupation r

/-- FLAGS: minor prompting — value true but not already recorded as major. -/
def flMinorPrompting (r : QARecord) : List Issue :=
  if to_bool (promptOf r).value == some true &&
      !((assignbackIssues r).any
        (fun x => x.issue == "Major agent-led prompting detected"))
  then [⟨"Minor prompting detected", .other⟩] else []

/-- FLAGS: customer hesitation. -/
def flHesitation (r : QARecord) : List Issue :=
  if to_bool (r.hesitation.getD emptyPrompt).value == some true
  then [⟨"Customer hesitation detected", .other⟩] else []

/-- FLAGS: height outside [130, 210]. -/
def flHeight (r : QARecord) : List Issue :=
  match r.height_cm with
  | some (some h) => if h < 130 ∨ 210 < h then [⟨"Height out of range", .other⟩] else []
  | _ => []

/-- FLAGS: weight outside [35, 150]. -/
def flWeight (r : QARecord) : List Issue :=
  match r.weight_kg with
  | some (some wv) => if wv < 35 ∨ 150 < wv then [⟨"Weight out of range", .other⟩] else []
  | _ => []

/-- FLAGS: a captured response contains "later revealed". -/
def flContradictory (r : QARecord) : List Issue :=
  if (r.qa_matrix.filter (fun it =>
      substr "later revealed".data (pyLower it.captured_response))).isEmpty
  then [] else [⟨"Contradictory responses", .other⟩]

/-- FLAGS: privacy_maintained is exactly False. -/
def flPrivacy (r : QARecord) : List Issue :=
  if to_bool r.privacy_maintained == some false
  then [⟨"Privacy breach in video", .other⟩] else []

/-- FLAGS: politeness is "no" or "partial". -/
def flPoliteness (r : QARecord) : List Issue :=
  if (pyLower (pyStrip (r.politeness_value.getD [])) == "no".data ||
      pyLower (pyStrip (r.politeness_value.getD [])) == "partial".data)
  then [⟨"Unprofessional behavior (politeness)", .other⟩] else []

/-- The FLAGS bucket, rules in source order. -/
def flagsIssues (r : QARecord) : List Issue :=
  flMinorPrompting r ++ flHesitation r ++ flHeight r ++ flWeight r ++
  flContradictory r ++ flPrivacy r ++ flPoliteness r

/-- TECH_ISSUES: recording_exists is exactly False. -/
def tcRecording (r : QARecord) : List Issue :=
  if r.recording_exists == some false
  then [⟨"Recording file missing", .other⟩] else []

/-- TECH_ISSUES: audibility poor/inaudible/not_audible. -/
def tcAudibility (r : QARecord) : List Issue :=
  if (pyLower (pyStrip r.audibility_level) == "poor".data ||
      pyLower (pyStrip r.audibility_level) == "inaudible".data ||
      pyLower (pyStrip r.audibility_level) == "not_audible".data)
  then [⟨"Voice not audible", .other⟩] else []

/-- TECH_ISSUES: visibility present and not both_visible. -/
def tcVisibility (r : QARecord) : List Issue :=
  if (!(pyLower (pyStrip r.visibility_status) == []) &&
      !(pyLower (pyStrip r.visibility_status) == "both_visible".data))
  then [⟨"Not both participants visible", .other⟩] else []

/-- The TECH_ISSUES bucket, rules in source order. -/
def techIssues (r : QARecord) : List Issue :=
  tcRecording r ++ tcAudibility r ++ tcVisibility r

/-- Function `summarize_record` from `src/decision_builder.py`: the pure rule engine on
the loaded record data, one bucket per category, rules in source order. -/
def summarize_record (r : QARecord) : Issues :=
  ⟨assignbackIssues r, opsIssues r, flagsIssues r, techIssues r⟩

/-- An issue with the given title is present in a bucket. -/
def hasIssue (l : List Issue) (t : String) : Prop := ∃ d, Issue.mk t d ∈ l

theorem mem_ite_nil {p : Prop} [Decidable p] {x : Issue} {l : List Issue} :
    (x ∈ if p then l else []) ↔ p ∧ x ∈ l := by
  split_ifs with h <;> simp [h]
theorem mem_opSpelling {r : QARecord} {x : Issue} :
    x ∈ opSpelling r ↔ ∃ n : ℤ, intCoerce r.spelling_errors = some n ∧ 3 ≤ n ∧
      x = ⟨"3+ spelling errors in MER", .countInt n⟩ := by
  unfold opSpelling
  cases h : intCoerce r.spelling_errors with
  | none => simp
  | some n =>
    by_cases h3 : 3 ≤ n
    · simp [h3]
    · simp [h3]

theorem mem_flHeight {r : QARecord} {x : Issue} :
    x ∈ flHeight r ↔ ∃ h : ℚ, r.height_cm = some (some h) ∧ (h < 130 ∨ 210 < h) ∧
      x = ⟨"Height out of range", .other⟩ := by
  unfold flHeight
  cases hh : r.height_cm with
  | none => simp
  | some o =>
    cases o with
    | none => simp
    | some h =>
      by_cases hb : h < 130 ∨ 210 < h
      · simp [hb]
      · simp [hb]

theorem mem_flWeight {r : QARecord} {x : Issue} :
    x ∈ flWeight r ↔ ∃ wv : ℚ, r.weight_kg = some (some wv) ∧ (wv < 35 ∨ 150 < wv) ∧
      x = ⟨"Weight out of range", .other⟩ := by
  unfold flWeight
  cases hh : r.weight_kg with
  | none => simp
  | some o =>
    cases o with
    | none => simp
    | some wv =>
      by_cases hb : wv < 35 ∨ 150 < wv
      · simp [hb]
      · simp [hb]

theorem any_title_iff (l : List Issue) (t : String) :
    (l.any (fun x => x.issue == t) = true) ↔ hasIssue l t := by
  rw [List.any_eq_true]
  constructor
  · rintro ⟨⟨ti, di⟩, hx, hpx⟩
    simp only [beq_iff_eq] at hpx
    subst hpx
    exact ⟨di, hx⟩
  · rintro ⟨d, hd⟩
    exact ⟨_, hd, by simp⟩

theorem assignback_major_iff (r : QARecord) :
    hasIssue (assignbackIssues r) "Major agent-led prompting detected" ↔
      (to_bool (promptOf r).value = some true ∧
        (lenGe2 (promptOf r).examples = true ∨ lenGe2 (promptOf r).timestamps = true)) := by
  simp only [assignbackIssues, hasIssue]
  simp [abQuestionsMissing, abPPName, abIdMissing, abClubbed, abManyIncorrect,
    abDisclaimer, abCallOpening, abMajorPrompting, abAttire, mem_ite_nil,
    majorPromptCond]

theorem mem_flMinorPrompting {r : QARecord} {x : Issue} :
    x ∈ flMinorPrompting r ↔
      ((to_bool (promptOf r).value = some true ∧
        ¬ (to_bool (promptOf r).value = some true ∧
          (lenGe2 (promptOf r).examples = true ∨
            lenGe2 (promptOf r).timestamps = true))) ∧
      x = ⟨"Minor prompting detected", Detail.other⟩) := by
  have hAny := (any_title_iff (assignbackIssues r)
    "Major agent-led prompting detected").trans (assignback_major_iff r)
  unfold flMinorPrompting
  rw [mem_ite_nil]
  constructor
  · rintro ⟨hb, hx⟩
    simp only [Bool.and_eq_true, beq_iff_eq, Bool.not_eq_true'] at hb
    refine ⟨⟨hb.1, ?_⟩, by simpa using hx⟩
    intro hcontra
    have h1 := hAny.mpr hcontra
    rw [hb.2] at h1
    exact absurd h1 (by simp)
  · rintro ⟨⟨hv, hnm⟩, hx⟩
    refine ⟨?_, by simpa using hx⟩
    simp only [Bool.and_eq_true, beq_iff_eq, Bool.not_eq_true']
    refine ⟨hv, ?_⟩
    by_cases ha : (assignbackIssues r).any
        (fun x => x.issue == "Major agent-led prompting detected") = true
    · exact absurd (hAny.mp ha) hnm
    · simpa using ha

/-- C2: the two incorrect-count threshold rules. -/
theorem incorrect_thresholds_spec (r : QARecord) :
    (hasIssue (summarize_record r).ASSIGNBACK "Many incorrect documentation entries" ↔
      8 ≤ (incorrectItems r.qa_matrix).length) ∧
    (hasIssue (summarize_record r).OPS_ATTENTION "4-7 incorrect documentation entries" ↔
      (4 ≤ (incorrectItems r.qa_matrix).length ∧
        (incorrectItems r.qa_matrix).length ≤ 7)) ∧
    ¬ (hasIssue (summarize_record r).ASSIGNBACK "Many incorrect documentation entries" ∧
      hasIssue (summarize_record r).OPS_ATTENTION "4-7 incorrect documentation entries") := by
  have hA : hasIssue (summarize_record r).ASSIGNBACK
      "Many incorrect documentation entries" ↔
      8 ≤ (incorrectItems r.qa_matrix).length := by
    simp only [summarize_record, assignbackIssues, hasIssue]
    simp [abQuestionsMissing, abPPName, abIdMissing, abClubbed, abManyIncorrect,
      abDisclaimer, abCallOpening, abMajorPrompting, abAttire, mem_ite_nil]
  have hO : hasIssue (summarize_record r).OPS_ATTENTION
      "4-7 incorrect documentation entries" ↔
      (4 ≤ (incorrectItems r.qa_matrix).length ∧
        (incorrectItems r.qa_matrix).length ≤ 7) := by
    simp only [summarize_record, opsIssues, hasIssue]
    simp [opTypos, opDob, opFourToSeven, opOccupation, mem_ite_nil, mem_opSpelling]
  refine ⟨hA, hO, ?_⟩
  rintro ⟨h1, h2⟩
  rw [hA] at h1
  rw [hO] at h2
  omega

/-- C3: the two prompting rules. -/
theorem prompting_spec (r : QARecord) :
    (hasIssue (summarize_record r).ASSIGNBACK "Major agent-led prompting detected" ↔
      (to_bool (promptOf r).value = some true ∧
        (lenGe2 (promptOf r).examples = true ∨
          lenGe2 (promptOf r).timestamps = true))) ∧
    (hasIssue (summarize_record r).FLAGS "Minor prompting detected" ↔
      (to_bool (promptOf r).value = some true ∧
        ¬ (lenGe2 (promptOf r).examples = true ∨
          lenGe2 (promptOf r).timestamps = true))) ∧
    ¬ (hasIssue (summarize_record r).ASSIGNBACK "Major agent-led prompting detected" ∧
      hasIssue (summarize_record r).FLAGS "Minor prompting detected") := by
  have hMaj : hasIssue (summarize_record r).ASSIGNBACK
      "Major agent-led prompting detected" ↔
      (to_bool (promptOf r).value = some true ∧
        (lenGe2 (promptOf r).examples = true ∨
          lenGe2 (promptOf r).timestamps = true)) :=
    assignback_major_iff r
  have hMin : hasIssue (summarize_record r).FLAGS "Minor prompting detected" ↔
      (to_bool (promptOf r).value = some true ∧
        ¬ (lenGe2 (promptOf r).examples = true ∨
          lenGe2 (promptOf r).timestamps = true)) := by
    show hasIssue (flagsIssues r) "Minor prompting detected" ↔ _
    unfold flagsIssues hasIssue
    simp only [List.mem_append, mem_flMinorPrompting, mem_flHeight, mem_flWeight]
    simp [flHesitation, flContradictory, flPrivacy, flPoliteness, mem_ite_nil]
    tauto
  refine ⟨hMaj, hMin, ?_⟩
  rintro ⟨h1, h2⟩
  rw [hMaj] at h1
  rw [hMin] at h2
  exact h2.2 h1.2

/-- C8: the height flag. -/
theorem height_flag_spec (r : QARecord) :
    hasIssue (summarize_record r).FLAGS "Height out of range" ↔
      ∃ h : ℚ, r.height_cm = some (some h) ∧ (h < 130 ∨ 210 < h) := by
  show hasIssue (flagsIssues r) "Height out of range" ↔ _
  unfold flagsIssues hasIssue
  simp only [List.mem_append, mem_flMinorPrompting, mem_flHeight, mem_flWeight]
  simp [flHesitation, flContradictory, flPrivacy, flPoliteness, mem_ite_nil]
  aesop

/-- C10: the multiple-typos OPS rule. -/
theorem typos_spec (r : QARecord) :
    (hasIssue (summarize_record r).OPS_ATTENTION "Multiple typos in MER entries" ↔
      3 ≤ (typoItems r.qa_matrix).length) ∧
    (∀ d : Detail, Issue.mk "Multiple typos in MER entries" d ∈
        (summarize_record r).OPS_ATTENTION →
      d = Detail.count (typoItems r.qa_matrix).length) := by
  constructor
  · simp only [summarize_record, opsIssues, hasIssue]
    simp [opTypos, opDob, opFourToSeven, opOccupation, mem_ite_nil, mem_opSpelling]
  · intro d hd
    simp only [summarize_record, opsIssues] at hd
    simp [opTypos, opDob, opFourToSeven, opOccupation, mem_ite_nil,
      mem_opSpelling] at hd
    exact hd.2

/-- A QA record with the given matrix and all other inputs neutral. -/
def sampleRecord (items : List Item) : QARecord :=
  ⟨items, [], [], BVal.other, none, [], none, none, IntVal.falsy, none, none,
    none, [], none⟩

/-- An item with status Incorrect. -/
def incItem : Item := ⟨"3.1".data, [], "Incorrect".data, [], [], none⟩

/-- An item with a truthy typo flag. -/
def typoFlaggedItem : Item := ⟨"3.1".data, [], "Correct".data, [], [], some true⟩

/-- A record whose prompting flag is true with the given examples value. -/
def promptedRecord (ex : LVal) : QARecord :=
  ⟨[], [], [], BVal.other, none, [], some ⟨BVal.bool true, ex, LVal.falsy⟩, none,
    IntVal.falsy, none, none, none, [], none⟩

/-- A record with height_cm parsing to 250 and everything else neutral. -/
def heightRecord : QARecord :=
  ⟨[], [], [], BVal.other, none, [], none, none, IntVal.falsy, some (some 250),
    none, none, [], none⟩

/-- Witness for C2: 9 Incorrect items fire the ASSIGNBACK rule, 5 fire the
OPS_ATTENTION rule. -/
theorem incorrect_thresholds_witness :
    hasIssue (summarize_record (sampleRecord (List.replicate 9 incItem))).ASSIGNBACK
      "Many incorrect documentation entries" ∧
    hasIssue (summarize_record (sampleRecord (List.replicate 5 incItem))).OPS_ATTENTION
      "4-7 incorrect documentation entries" :=
  ⟨(incorrect_thresholds_spec (sampleRecord (List.replicate 9 incItem))).1.mpr
      (by decide),
   (incorrect_thresholds_spec (sampleRecord (List.replicate 5 incItem))).2.1.mpr
      (by decide)⟩

/-- Witness for C3: two examples give the major ASSIGNBACK issue, one example
gives the minor FLAGS issue. -/
theorem prompting_witness :
    hasIssue (summarize_record (promptedRecord (LVal.list 2))).ASSIGNBACK
      "Major agent-led prompting detected" ∧
    hasIssue (summarize_record (promptedRecord (LVal.list 1))).FLAGS
      "Minor prompting detected" :=
  ⟨(prompting_spec (promptedRecord (LVal.list 2))).1.mpr (by decide),
   (prompting_spec (promptedRecord (LVal.list 1))).2.1.mpr (by decide)⟩

/-- Witness for C8: height 250 fires the flag. -/
theorem height_flag_witness :
    hasIssue (summarize_record heightRecord).FLAGS "Height out of range" :=
  (height_flag_spec heightRecord).mpr ⟨250, rfl, by norm_num⟩

/-- Witness for C10: three typo-flagged items fire the rule with count 3. -/
theorem typos_witness :
    hasIssue (summarize_record (sampleRecord (List.replicate 3 typoFlaggedItem))).OPS_ATTENTION
      "Multiple typos in MER entries" ∧
    Detail.count 3 =
      Detail.count (typoItems (List.replicate 3 typoFlaggedItem)).length :=
  ⟨(typos_spec (sampleRecord (List.replicate 3 typoFlaggedItem))).1.mpr (by decide),
   (typos_spec (sampleRecord (List.replicate 3 typoFlaggedItem))).2
      (Detail.count 3) (by decide)⟩
